import Mathlib

/-!
Verification of the tab-controller component of the `mast` repository.

Two source variants exist: the classic controller (`src/tabs.js`) and the
optimized controller (`src/unnamed/part_000`).  Both are shallowly embedded
below as pure state machines.  DOM state that the controller writes
(aria attributes, the `cc-active` class, `tabindex` on the overlay button,
`aria-hidden` on panes, the `cc-open` dropdown class, the `autoplay-paused`
class) is carried in the state; purely visual effects with no influence on
the controller state (smooth scrolling, progress-bar animation replay,
dropdown label text, focus moves, aria-label text on the toggle button)
are omitted.  Browser timers are modelled explicitly: `setTimeout` appends
a record to a pending list and returns a fresh positive id, `clearTimeout`
removes the record with that id, and a timer can only fire while its record
is still pending.  Wall-clock time is an explicit `Int` parameter (ms).

Markup assumptions, matching the mount guard of both variants: every tab
link contains its `[data-tabs-link-button]` overlay (the attribute writes
and key/click wiring that the source guards on overlay existence are
modelled as always applying).
-/

namespace Mast

/-- One tab link element: its `id` (used for hash deep-linking), the
`aria-selected` attribute, presence of the `cc-active` class, and the
`tabindex` attribute of its overlay button. -/
structure TabLink where
  id : String
  ariaSelected : Bool
  ccActive : Bool
  overlayTabindex : Int
  deriving Repr, DecidableEq

/-- One tab pane element: its `aria-hidden` attribute. -/
structure TabPane where
  ariaHidden : Bool
  deriving Repr, DecidableEq

/-- A scheduled, not-yet-fired, not-cancelled `setTimeout`: its id and the
delay (ms) it was scheduled with. -/
structure Timeout where
  tid : Nat
  delay : Int
  deriving Repr, DecidableEq

/-- Keys handled by the keyboard-navigation handler. -/
inductive TabKey where
  | arrowLeft
  | arrowRight
  | homeKey
  | endKey
  | otherKey
  deriving Repr, DecidableEq

namespace Classic

/-- State of one mounted tabs component of the classic variant
(`src/tabs.js`): the closure variables of `initTabsComponent` plus the DOM
state it writes, plus the explicit pending-timeout model. -/
structure TabState where
  tabLinks : List TabLink
  tabPanes : List TabPane
  currentActiveIndex : Nat
  isMobileDropdown : Bool
  /-- `cc-open` class on the dropdown menu / toggle. -/
  dropdownOpen : Bool
  autoplayEnabled : Bool
  /-- the parsed `data-tabs-autoplay-duration` value, in seconds
  (fractional durations are abstracted to integers). -/
  autoplayDuration : Int
  autoplayHoverPause : Bool
  isAutoplayPaused : Bool
  /-- `autoplay-paused` class on the component root. -/
  pausedClass : Bool
  autoplayElapsedTime : Int
  autoplayStartTime : Option Int
  /-- the `autoplayTimer` variable (the stored timeout id, `null` ↦ `none`). -/
  autoplayTimer : Option Nat
  /-- pending autoplay timeouts in the browser's timer queue. -/
  pendingTimeouts : List Timeout
  /-- next fresh timeout id (ids start at 1, so a stored id is never falsy). -/
  nextTimerId : Nat
  deriving Repr, DecidableEq

/-- Browser `setTimeout`: schedule a timeout with the given delay, return
the updated state and the fresh id. -/
def setTimeoutM (delay : Int) (s : TabState) : TabState × Nat :=
  ({ s with
      pendingTimeouts := s.pendingTimeouts ++ [⟨s.nextTimerId, delay⟩],
      nextTimerId := s.nextTimerId + 1 },
   s.nextTimerId)

/-- Browser `clearTimeout`: drop the pending timeout with the given id. -/
def clearTimeoutM (tid : Nat) (s : TabState) : TabState :=
  { s with pendingTimeouts := s.pendingTimeouts.filter (fun t => t.tid ≠ tid) }

/-- `stopAutoplay` from `src/tabs.js` lines 218-224. -/
def stopAutoplay (s : TabState) : TabState :=
  let s :=
    match s.autoplayTimer with
    | some tid => { clearTimeoutM tid s with autoplayTimer := none }
    | none => s
  { s with autoplayStartTime := none }

/-- `startAutoplay` from `src/tabs.js` lines 201-213, with `now` the value
of `Date.now()`. -/
def startAutoplay (now : Int) (s : TabState) : TabState :=
  if !s.autoplayEnabled || s.isAutoplayPaused then s
  else
    let s := stopAutoplay s
    let remainingTime := s.autoplayDuration * 1000 - s.autoplayElapsedTime
    let s := { s with autoplayStartTime := some now }
    let p := setTimeoutM remainingTime s
    { p.1 with autoplayTimer := some p.2 }

/-- `restartAutoplay` from `src/tabs.js` lines 229-247: reset the elapsed
time, replay the progress-bar animation (visual only, omitted), then
`startAutoplay()`.  In the source this is declared after `setActiveTab`
but never re-enters it, so the order here is safe. -/
def restartAutoplay (now : Int) (s : TabState) : TabState :=
  if !s.autoplayEnabled then s
  else startAutoplay now { s with autoplayElapsedTime := 0 }

/-- `setActiveTab` from `src/tabs.js` lines 43-114 (scrolling and the
dropdown label text are visual-only and omitted). -/
def setActiveTab (now : Int) (index : Int) (s : TabState) : TabState :=
  if index < 0 || index ≥ (s.tabLinks.length : Int) then s
  else
    let idx := index.toNat
    let s :=
      { s with
          tabLinks := s.tabLinks.mapIdx (fun i (l : TabLink) =>
            { l with
                ariaSelected := i == idx,
                ccActive := i == idx,
                overlayTabindex := if i == idx then 0 else -1 }),
          tabPanes := s.tabPanes.mapIdx (fun i (p : TabPane) =>
            { p with ariaHidden := i != idx }),
          currentActiveIndex := idx }
    let s := if s.dropdownOpen then { s with dropdownOpen := false } else s
    if s.autoplayEnabled then
      if s.isAutoplayPaused then
        { s with autoplayElapsedTime := 0 }
      else
        restartAutoplay now s
    else s

/-- `pauseAutoplay` from `src/tabs.js` lines 266-278. -/
def pauseAutoplay (now : Int) (s : TabState) : TabState :=
  if !s.autoplayEnabled then s
  else
    let s :=
      match s.autoplayStartTime with
      | some t0 => { s with autoplayElapsedTime := s.autoplayElapsedTime + (now - t0) }
      | none => s
    let s := { s with isAutoplayPaused := true, pausedClass := true }
    stopAutoplay s

/-- `resumeAutoplay` from `src/tabs.js` lines 283-289. -/
def resumeAutoplay (now : Int) (s : TabState) : TabState :=
  if !s.autoplayEnabled then s
  else
    let s := { s with isAutoplayPaused := false, pausedClass := false }
    startAutoplay now s

/-- Firing of the autoplay timeout with id `tid`: the browser only invokes
the callback if the timeout is still pending; the callback body is
`setActiveTab((currentActiveIndex + 1) % tabLinks.length)`
(`src/tabs.js` lines 209-212). -/
def fireTimer (now : Int) (tid : Nat) (s : TabState) : TabState :=
  if s.pendingTimeouts.any (fun t => t.tid = tid) then
    let s := { s with pendingTimeouts := s.pendingTimeouts.filter (fun t => t.tid ≠ tid) }
    let nextIndex : Nat := (s.currentActiveIndex + 1) % s.tabLinks.length
    setActiveTab now (nextIndex : Int) s
  else s

/-- The keyboard handler's index computation (`src/tabs.js` lines
376-398): `none` means the key is not handled (`default: return`). -/
def keyNewIndex (k : TabKey) (currentActiveIndex n : Nat) : Option Nat :=
  match k with
  | .arrowLeft => some (if currentActiveIndex > 0 then currentActiveIndex - 1 else n - 1)
  | .arrowRight => some (if currentActiveIndex < n - 1 then currentActiveIndex + 1 else 0)
  | .homeKey => some 0
  | .endKey => some (n - 1)
  | .otherKey => none

/-- `findInitialActiveIndex` from `src/tabs.js` lines 346-366.
`locationHash` is `window.location.hash` (empty or starting with `#`;
the source tests its truthiness and then drops the leading `#`). -/
def findInitialActiveIndex (locationHash : String) (links : List TabLink) : Nat :=
  let hashMatch : Option Nat :=
    if locationHash ≠ "" then
      links.findIdx? (fun l => l.id = locationHash.drop 1)
    else none
  match hashMatch with
  | some i => i
  | none =>
    match links.findIdx? (fun l => l.ccActive) with
    | some i => i
    | none => 0

end Classic

/-- Environment events a mounted component can receive.  `timerFire` and
`resizeFire` carry the id of the browser timeout that is due; `resize`
carries the new `window.innerWidth`; `hashChange` carries the new value of
`window.location.hash`. -/
inductive Event where
  | clickTab (i : Nat)
  | keydown (k : TabKey)
  | timerFire (tid : Nat)
  | intersect (visible : Bool)
  | mouseEnter
  | mouseLeave
  | toggleClick
  | hashChange (h : String)
  | resize (w : Int)
  | resizeFire (tid : Nat)
  deriving Repr, DecidableEq

namespace Classic

/-- Keydown handler body (`src/tabs.js` lines 376-405): compute the new
index from the current one; unhandled keys return without side effects. -/
def onKeydown (now : Int) (k : TabKey) (s : TabState) : TabState :=
  match keyNewIndex k s.currentActiveIndex s.tabLinks.length with
  | some newIndex => setActiveTab now (newIndex : Int) s
  | none => s

/-- Hashchange handler (`src/tabs.js` lines 456-464). -/
def onHashChange (now : Int) (h : String) (s : TabState) : TabState :=
  if h ≠ "" then
    match s.tabLinks.findIdx? (fun l => l.id = h.drop 1) with
    | some matchIndex => setActiveTab now (matchIndex : Int) s
    | none => s
  else s

/-- One environment event processed by the classic variant's handlers.
The hover handlers are only wired when autoplay and hover-pause are both
configured (`setupAutoplayHoverPause`), the toggle handler only when
autoplay is configured (`setupAutoplayToggle`); the intersection observer
is only created when autoplay is configured, and `pauseAutoplay` /
`resumeAutoplay` are no-ops without autoplay anyway.  The classic variant
registers no resize listener and schedules no resize timeout, so `resize`
and `resizeFire` do nothing. -/
def step (now : Int) (e : Event) (s : TabState) : TabState :=
  match e with
  | .clickTab i => setActiveTab now (i : Int) s
  | .keydown k => onKeydown now k s
  | .timerFire tid => fireTimer now tid s
  | .intersect visible =>
      if s.autoplayEnabled then
        if visible then resumeAutoplay now s else pauseAutoplay now s
      else s
  | .mouseEnter =>
      if s.autoplayEnabled && s.autoplayHoverPause then pauseAutoplay now s else s
  | .mouseLeave =>
      if s.autoplayEnabled && s.autoplayHoverPause then resumeAutoplay now s else s
  | .toggleClick =>
      if s.autoplayEnabled then
        if s.isAutoplayPaused then resumeAutoplay now s else pauseAutoplay now s
      else s
  | .hashChange h => onHashChange now h s
  | .resize _ => s
  | .resizeFire _ => s

/-- Mount-time configuration of one component, read from markup attributes
by `initTabsComponent`. -/
structure Config where
  links0 : List TabLink
  panes0 : List TabPane
  isMobileDropdown : Bool
  autoplayEnabled : Bool
  autoplayDuration : Int
  autoplayHoverPause : Bool
  locationHash : String
  deriving Repr

/-- The closure state right after the variable declarations of
`initTabsComponent` (`src/tabs.js` lines 24-38), before `init()` runs. -/
def preInitState (c : Config) : TabState :=
  { tabLinks := c.links0
    tabPanes := c.panes0
    currentActiveIndex := 0
    isMobileDropdown := c.isMobileDropdown
    dropdownOpen := false
    autoplayEnabled := c.autoplayEnabled
    autoplayDuration := c.autoplayDuration
    autoplayHoverPause := c.autoplayHoverPause
    isAutoplayPaused := false
    pausedClass := false
    autoplayElapsedTime := 0
    autoplayStartTime := none
    autoplayTimer := none
    pendingTimeouts := []
    nextTimerId := 1 }

/-- `init` of `src/tabs.js` lines 432-465 at mount time `now`:
`setActiveTab(findInitialActiveIndex())`, then `startAutoplay()` when
autoplay is enabled.  (Listener registration has no immediate state
effect.) -/
def initState (now : Int) (c : Config) : TabState :=
  let s := preInitState c
  let s := setActiveTab now (findInitialActiveIndex c.locationHash c.links0 : Int) s
  if s.autoplayEnabled then startAutoplay now s else s

end Classic

namespace Opt

/-- State of one mounted tabs component of the optimized variant
(`src/unnamed/part_000`).  On top of the classic variant's closure state it
caches the window width (refreshed by a debounced resize handler), records
its listeners for `cleanup`, and owns a resize debounce timeout.
`listenersAttached` models whether the registrations recorded in the
`eventListeners` array are still attached; `observerConnected` models
whether the `IntersectionObserver` exists and is not disconnected;
`windowWidth` is the ambient `window.innerWidth` the debounce callback
reads when it fires. -/
structure TabState where
  tabLinks : List TabLink
  tabPanes : List TabPane
  currentActiveIndex : Nat
  isMobileDropdown : Bool
  dropdownOpen : Bool
  autoplayEnabled : Bool
  autoplayDuration : Int
  autoplayHoverPause : Bool
  isAutoplayPaused : Bool
  pausedClass : Bool
  autoplayElapsedTime : Int
  autoplayStartTime : Option Int
  autoplayTimer : Option Nat
  pendingTimeouts : List Timeout
  nextTimerId : Nat
  cachedWindowWidth : Int
  windowWidth : Int
  /-- the `resizeTimer` variable (stored debounce timeout id). -/
  resizeTimer : Option Nat
  /-- pending resize-debounce timeouts in the browser's timer queue. -/
  pendingResize : List Nat
  listenersAttached : Bool
  observerConnected : Bool
  deriving Repr, DecidableEq

/-- Browser `setTimeout` for the autoplay timeout (`part_000`). -/
def setTimeoutM (delay : Int) (s : TabState) : TabState × Nat :=
  ({ s with
      pendingTimeouts := s.pendingTimeouts ++ [⟨s.nextTimerId, delay⟩],
      nextTimerId := s.nextTimerId + 1 },
   s.nextTimerId)

/-- Browser `clearTimeout` on an autoplay timeout id. -/
def clearTimeoutM (tid : Nat) (s : TabState) : TabState :=
  { s with pendingTimeouts := s.pendingTimeouts.filter (fun t => t.tid ≠ tid) }

/-- `stopAutoplay` from `src/unnamed/part_000` lines 244-250. -/
def stopAutoplay (s : TabState) : TabState :=
  let s :=
    match s.autoplayTimer with
    | some tid => { clearTimeoutM tid s with autoplayTimer := none }
    | none => s
  { s with autoplayStartTime := none }

/-- `startAutoplay` from `src/unnamed/part_000` lines 227-239. -/
def startAutoplay (now : Int) (s : TabState) : TabState :=
  if !s.autoplayEnabled || s.isAutoplayPaused then s
  else
    let s := stopAutoplay s
    let remainingTime := s.autoplayDuration * 1000 - s.autoplayElapsedTime
    let s := { s with autoplayStartTime := some now }
    let p := setTimeoutM remainingTime s
    { p.1 with autoplayTimer := some p.2 }

/-- `restartAutoplay` from `src/unnamed/part_000` lines 255-276: reset
the elapsed time, replay the progress-bar animation via
requestAnimationFrame (visual only, omitted), then `startAutoplay()`. -/
def restartAutoplay (now : Int) (s : TabState) : TabState :=
  if !s.autoplayEnabled then s
  else startAutoplay now { s with autoplayElapsedTime := 0 }

/-- `setActiveTab` from `src/unnamed/part_000` lines 57-134.  The
read/write batching (phases 1 and 2) has the same net effect as the
classic loops; `classList.toggle('cc-active', isActive)` sets the class
to `isActive`. -/
def setActiveTab (now : Int) (index : Int) (s : TabState) : TabState :=
  if index < 0 || index ≥ (s.tabLinks.length : Int) then s
  else
    let idx := index.toNat
    let s :=
      { s with
          tabLinks := s.tabLinks.mapIdx (fun i (l : TabLink) =>
            { l with
                ariaSelected := i == idx,
                ccActive := i == idx,
                overlayTabindex := if i == idx then 0 else -1 }),
          tabPanes := s.tabPanes.mapIdx (fun i (p : TabPane) =>
            { p with ariaHidden := i != idx }),
          currentActiveIndex := idx }
    let s := if s.dropdownOpen then { s with dropdownOpen := false } else s
    if s.autoplayEnabled then
      if s.isAutoplayPaused then
        { s with autoplayElapsedTime := 0 }
      else
        restartAutoplay now s
    else s

/-- `pauseAutoplay` from `src/unnamed/part_000` lines 294-306. -/
def pauseAutoplay (now : Int) (s : TabState) : TabState :=
  if !s.autoplayEnabled then s
  else
    let s :=
      match s.autoplayStartTime with
      | some t0 => { s with autoplayElapsedTime := s.autoplayElapsedTime + (now - t0) }
      | none => s
    let s := { s with isAutoplayPaused := true, pausedClass := true }
    stopAutoplay s

/-- `resumeAutoplay` from `src/unnamed/part_000` lines 311-317. -/
def resumeAutoplay (now : Int) (s : TabState) : TabState :=
  if !s.autoplayEnabled then s
  else
    let s := { s with isAutoplayPaused := false, pausedClass := false }
    startAutoplay now s

/-- Firing of the autoplay timeout with id `tid` (`part_000` lines
235-238). -/
def fireTimer (now : Int) (tid : Nat) (s : TabState) : TabState :=
  if s.pendingTimeouts.any (fun t => t.tid = tid) then
    let s := { s with pendingTimeouts := s.pendingTimeouts.filter (fun t => t.tid ≠ tid) }
    let nextIndex : Nat := (s.currentActiveIndex + 1) % s.tabLinks.length
    setActiveTab now (nextIndex : Int) s
  else s

/-- Keydown handler body (`part_000` lines 411-440). -/
def onKeydown (now : Int) (k : TabKey) (s : TabState) : TabState :=
  match Classic.keyNewIndex k s.currentActiveIndex s.tabLinks.length with
  | some newIndex => setActiveTab now (newIndex : Int) s
  | none => s

/-- Hashchange handler (`part_000` lines 533-541). -/
def onHashChange (now : Int) (h : String) (s : TabState) : TabState :=
  if h ≠ "" then
    match s.tabLinks.findIdx? (fun l => l.id = h.drop 1) with
    | some matchIndex => setActiveTab now (matchIndex : Int) s
    | none => s
  else s

/-- Resize handler (`part_000` lines 474-480): debounce — clear the
previous debounce timeout and schedule a fresh 150 ms one; the new window
width becomes visible to the debounce callback when it fires. -/
def onResize (w : Int) (s : TabState) : TabState :=
  let s := { s with windowWidth := w }
  let s :=
    match s.resizeTimer with
    | some tid => { s with pendingResize := s.pendingResize.filter (fun t => t ≠ tid) }
    | none => s
  { s with
      pendingResize := s.pendingResize ++ [s.nextTimerId],
      resizeTimer := some s.nextTimerId,
      nextTimerId := s.nextTimerId + 1 }

/-- Firing of the resize-debounce timeout with id `tid` (`part_000` lines
477-479): refresh `cachedWindowWidth`. -/
def fireResize (tid : Nat) (s : TabState) : TabState :=
  if s.pendingResize.any (fun t => t = tid) then
    let s := { s with pendingResize := s.pendingResize.filter (fun t => t ≠ tid) }
    { s with cachedWindowWidth := s.windowWidth }
  else s

/-- `cleanup` from `src/unnamed/part_000` lines 489-503: remove every
recorded listener, disconnect the observer, `stopAutoplay()`, and clear
the resize debounce timeout (the `resizeTimer` variable itself keeps its
stale id, which is harmless). -/
def cleanup (s : TabState) : TabState :=
  let s := { s with listenersAttached := false }
  let s := { s with observerConnected := false }
  let s := stopAutoplay s
  match s.resizeTimer with
  | some tid => { s with pendingResize := s.pendingResize.filter (fun t => t ≠ tid) }
  | none => s

/-- One environment event processed by the optimized variant.  Handlers
wired through `addEventListener` (and recorded in `eventListeners`) only
run while still attached; the intersection-observer callback only runs
while the observer exists and is connected; a timeout only fires while
still pending. -/
def step (now : Int) (e : Event) (s : TabState) : TabState :=
  match e with
  | .clickTab i => if s.listenersAttached then setActiveTab now (i : Int) s else s
  | .keydown k => if s.listenersAttached then onKeydown now k s else s
  | .timerFire tid => fireTimer now tid s
  | .intersect visible =>
      if s.observerConnected then
        if visible then resumeAutoplay now s else pauseAutoplay now s
      else s
  | .mouseEnter =>
      if s.listenersAttached && s.autoplayEnabled && s.autoplayHoverPause then
        pauseAutoplay now s
      else s
  | .mouseLeave =>
      if s.listenersAttached && s.autoplayEnabled && s.autoplayHoverPause then
        resumeAutoplay now s
      else s
  | .toggleClick =>
      if s.listenersAttached && s.autoplayEnabled then
        if s.isAutoplayPaused then resumeAutoplay now s else pauseAutoplay now s
      else s
  | .hashChange h => if s.listenersAttached then onHashChange now h s else s
  | .resize w => if s.listenersAttached then onResize w s else s
  | .resizeFire tid => fireResize tid s

end Opt

end Mast

namespace Mast.Classic

theorem stopAutoplay_eq (s : TabState) :
    stopAutoplay s =
      { s with
          autoplayTimer := none
          autoplayStartTime := none
          pendingTimeouts :=
            match s.autoplayTimer with
            | some tid => s.pendingTimeouts.filter (fun t => t.tid ≠ tid)
            | none => s.pendingTimeouts } := by
  cases s with
  | mk tl tp ci md dd ae ad ahp ip pc et ast at_ pt nt =>
    cases at_ <;> simp [stopAutoplay, clearTimeoutM]

theorem startAutoplay_eq (now : Int) (s : TabState) :
    startAutoplay now s =
      if !s.autoplayEnabled || s.isAutoplayPaused then s
      else
        { s with
            autoplayStartTime := some now
            autoplayTimer := some s.nextTimerId
            pendingTimeouts :=
              (match s.autoplayTimer with
               | some tid => s.pendingTimeouts.filter (fun t => t.tid ≠ tid)
               | none => s.pendingTimeouts) ++
              [⟨s.nextTimerId, s.autoplayDuration * 1000 - s.autoplayElapsedTime⟩]
            nextTimerId := s.nextTimerId + 1 } := by
  cases s with
  | mk tl tp ci md dd ae ad ahp ip pc et ast at_ pt nt =>
    cases at_ <;> cases ae <;> cases ip <;>
      simp [startAutoplay, stopAutoplay, clearTimeoutM, setTimeoutM]

theorem pauseAutoplay_eq (now : Int) (s : TabState) :
    pauseAutoplay now s =
      if !s.autoplayEnabled then s
      else
        { s with
            autoplayElapsedTime :=
              match s.autoplayStartTime with
              | some t0 => s.autoplayElapsedTime + (now - t0)
              | none => s.autoplayElapsedTime
            isAutoplayPaused := true
            pausedClass := true
            autoplayTimer := none
            autoplayStartTime := none
            pendingTimeouts :=
              match s.autoplayTimer with
              | some tid => s.pendingTimeouts.filter (fun t => t.tid ≠ tid)
              | none => s.pendingTimeouts } := by
  cases s with
  | mk tl tp ci md dd ae ad ahp ip pc et ast at_ pt nt =>
    cases at_ <;> cases ae <;> cases ast <;>
      simp [pauseAutoplay, stopAutoplay, clearTimeoutM]

theorem resumeAutoplay_eq (now : Int) (s : TabState) :
    resumeAutoplay now s =
      if !s.autoplayEnabled then s
      else
        { s with
            isAutoplayPaused := false
            pausedClass := false
            autoplayStartTime := some now
            autoplayTimer := some s.nextTimerId
            pendingTimeouts :=
              (match s.autoplayTimer with
               | some tid => s.pendingTimeouts.filter (fun t => t.tid ≠ tid)
               | none => s.pendingTimeouts) ++
              [⟨s.nextTimerId, s.autoplayDuration * 1000 - s.autoplayElapsedTime⟩]
            nextTimerId := s.nextTimerId + 1 } := by
  cases s with
  | mk tl tp ci md dd ae ad ahp ip pc et ast at_ pt nt =>
    cases at_ <;> cases ae <;>
      simp [resumeAutoplay, startAutoplay, stopAutoplay, clearTimeoutM, setTimeoutM]

/-- The indexed link update performed by `setActiveTab`. -/
def updLink (idx : Nat) (i : Nat) (l : TabLink) : TabLink :=
  { l with
      ariaSelected := i == idx,
      ccActive := i == idx,
      overlayTabindex := if i == idx then 0 else -1 }

/-- The indexed pane update performed by `setActiveTab`. -/
def updPane (idx : Nat) (i : Nat) (p : TabPane) : TabPane :=
  { p with ariaHidden := i != idx }

theorem setActiveTab_eq (now : Int) (index : Int) (s : TabState) :
    setActiveTab now index s =
      if index < 0 || index ≥ (s.tabLinks.length : Int) then s
      else
        let idx := index.toNat
        let base :=
          { s with
              tabLinks := s.tabLinks.mapIdx (fun i l => updLink idx i l)
              tabPanes := s.tabPanes.mapIdx (fun i p => updPane idx i p)
              currentActiveIndex := idx
              dropdownOpen := false }
        if s.autoplayEnabled then
          if s.isAutoplayPaused then { base with autoplayElapsedTime := 0 }
          else
            { base with
                autoplayElapsedTime := 0
                autoplayStartTime := some now
                autoplayTimer := some s.nextTimerId
                pendingTimeouts :=
                  (match s.autoplayTimer with
                   | some tid => s.pendingTimeouts.filter (fun t => t.tid ≠ tid)
                   | none => s.pendingTimeouts) ++
                  [⟨s.nextTimerId, s.autoplayDuration * 1000⟩]
                nextTimerId := s.nextTimerId + 1 }
        else base := by
  cases s with
  | mk tl tp ci md dd ae ad ahp ip pc et ast at_ pt nt =>
    cases at_ <;> cases ae <;> cases ip <;> cases dd <;>
      simp [setActiveTab, restartAutoplay, startAutoplay, stopAutoplay, clearTimeoutM,
        setTimeoutM, updLink, updPane]

end Mast.Classic

namespace Mast.Sample

/-- A sample tab link for concrete witnesses. -/
def link (s : String) (act : Bool) : TabLink :=
  { id := s, ariaSelected := act, ccActive := act, overlayTabindex := if act then 0 else -1 }

/-- A concrete mounted classic-variant state: 3 tabs, tab 0 active,
autoplay enabled (4 s, hover-pause on), running with a scheduled timer. -/
def s3 : Classic.TabState :=
  { tabLinks := [link "alpha" true, link "beta" false, link "gamma" false]
    tabPanes := [⟨false⟩, ⟨true⟩, ⟨true⟩]
    currentActiveIndex := 0
    isMobileDropdown := false
    dropdownOpen := false
    autoplayEnabled := true
    autoplayDuration := 4
    autoplayHoverPause := true
    isAutoplayPaused := false
    pausedClass := false
    autoplayElapsedTime := 0
    autoplayStartTime := some 1000
    autoplayTimer := some 1
    pendingTimeouts := [⟨1, 4000⟩]
    nextTimerId := 2 }

end Mast.Sample

namespace Mast

/-- Claim C7: for every tab group with n tabs and every integer index with
index < 0 or index ≥ n, `setActiveTab(index)` is a complete no-op — the
whole component state (active index, every tab/pane attribute, and all
autoplay state) is unchanged, silently. -/
theorem tabs_C7_out_of_range_setActive_noop (now index : Int) (s : Classic.TabState)
    (h : index < 0 ∨ (s.tabLinks.length : Int) ≤ index) :
    Classic.setActiveTab now index s = s := by
  rcases h with h | h <;> simp [Classic.setActiveTab_eq, h]

/-- Witness for C7 at a concrete state and index. -/
theorem tabs_C7_witness :
    ((3 : Int) < 0 ∨ ((Sample.s3.tabLinks.length : Int) ≤ 3)) ∧
      Classic.setActiveTab 5000 3 Sample.s3 = Sample.s3 :=
  ⟨Or.inr (by decide), tabs_C7_out_of_range_setActive_noop 5000 3 Sample.s3 (Or.inr (by decide))⟩

end Mast

namespace Mast

/-- Claim C1: for every tab group with n tabs (and matching panes) and
every valid index i, after `setActiveTab(i)` exactly one tab link is
`aria-selected` and carries the `cc-active` class — the one at position
i — and exactly one pane has `aria-hidden = false` — the one at position
i; every other tab is unselected and every other pane hidden. -/
theorem tabs_C1_setActive_exactly_one (now : Int) (s : Classic.TabState) (i : Nat)
    (hi : i < s.tabLinks.length) (hp : s.tabPanes.length = s.tabLinks.length) :
    let s' := Classic.setActiveTab now (i : Int) s
    i < s'.tabLinks.length ∧
    i < s'.tabPanes.length ∧
    (∀ j (hj : j < s'.tabLinks.length),
      (s'.tabLinks[j].ariaSelected = true ↔ j = i) ∧
      (s'.tabLinks[j].ccActive = true ↔ j = i)) ∧
    (∀ j (hj : j < s'.tabPanes.length),
      (s'.tabPanes[j].ariaHidden = false ↔ j = i)) := by
  intro s'
  have hcond : ¬((i : Int) < 0 ∨ (s.tabLinks.length : Int) ≤ (i : Int)) := by
    push_neg
    exact ⟨Int.ofNat_nonneg i, by exact_mod_cast hi⟩
  have hs' : s' = Classic.setActiveTab now (i : Int) s := rfl
  rw [Classic.setActiveTab_eq] at hs'
  simp only [Int.toNat_ofNat] at hs'
  rw [if_neg (by simpa using hcond)] at hs'
  have hlinks : s'.tabLinks = s.tabLinks.mapIdx (fun j l => Classic.updLink (Int.toNat i) j l) := by
    rw [hs']
    split <;> try split
    all_goals rfl
  have hpanes : s'.tabPanes = s.tabPanes.mapIdx (fun j p => Classic.updPane (Int.toNat i) j p) := by
    rw [hs']
    split <;> try split
    all_goals rfl
  refine ⟨by simp [hlinks, hi], by simp [hpanes, hp, hi], ?_, ?_⟩
  · intro j hj
    have hj' : j < s.tabLinks.length := by simpa [hlinks] using hj
    have : s'.tabLinks[j] = Classic.updLink (Int.toNat i) j s.tabLinks[j] := by
      simp [hlinks]
    rw [this]
    simp [Classic.updLink]
  · intro j hj
    have hj' : j < s.tabPanes.length := by simpa [hpanes] using hj
    have : s'.tabPanes[j] = Classic.updPane (Int.toNat i) j s.tabPanes[j] := by
      simp [hpanes]
    rw [this]
    simp [Classic.updPane]

end Mast

namespace Mast

/-- Witness for C1 at a concrete 3-tab state and index 1. -/
theorem tabs_C1_witness :
    (1 < Sample.s3.tabLinks.length ∧
     Sample.s3.tabPanes.length = Sample.s3.tabLinks.length) ∧
    (let s' := Classic.setActiveTab 2000 (1 : Int) Sample.s3
     1 < s'.tabLinks.length ∧
     1 < s'.tabPanes.length ∧
     (∀ j (hj : j < s'.tabLinks.length),
       (s'.tabLinks[j].ariaSelected = true ↔ j = 1) ∧
       (s'.tabLinks[j].ccActive = true ↔ j = 1)) ∧
     (∀ j (hj : j < s'.tabPanes.length),
       (s'.tabPanes[j].ariaHidden = false ↔ j = 1))) :=
  ⟨⟨by decide, by decide⟩,
   tabs_C1_setActive_exactly_one 2000 Sample.s3 1 (by decide) (by decide)⟩

end Mast

namespace Mast.Classic

theorem setActiveTab_currentActiveIndex (now : Int) (j : Nat) (s : TabState)
    (h : j < s.tabLinks.length) :
    (setActiveTab now (j : Int) s).currentActiveIndex = j := by
  rw [setActiveTab_eq]
  rw [if_neg (by simp; omega)]
  dsimp only
  split
  · split <;> simp
  · simp

theorem setActiveTab_isAutoplayPaused (now index : Int) (s : TabState) :
    (setActiveTab now index s).isAutoplayPaused = s.isAutoplayPaused := by
  rw [setActiveTab_eq]
  split
  · rfl
  · dsimp only
    split
    · split <;> rfl
    · rfl

theorem setActiveTab_autoplayEnabled (now index : Int) (s : TabState) :
    (setActiveTab now index s).autoplayEnabled = s.autoplayEnabled := by
  rw [setActiveTab_eq]
  split
  · rfl
  · dsimp only
    split
    · split <;> rfl
    · rfl

theorem setActiveTab_autoplayHoverPause (now index : Int) (s : TabState) :
    (setActiveTab now index s).autoplayHoverPause = s.autoplayHoverPause := by
  rw [setActiveTab_eq]
  split
  · rfl
  · dsimp only
    split
    · split <;> rfl
    · rfl

theorem fireTimer_isAutoplayPaused (now : Int) (tid : Nat) (s : TabState) :
    (fireTimer now tid s).isAutoplayPaused = s.isAutoplayPaused := by
  unfold fireTimer
  split
  · exact setActiveTab_isAutoplayPaused ..
  · rfl

theorem onKeydown_isAutoplayPaused (now : Int) (k : TabKey) (s : TabState) :
    (onKeydown now k s).isAutoplayPaused = s.isAutoplayPaused := by
  unfold onKeydown
  split
  · exact setActiveTab_isAutoplayPaused ..
  · rfl

theorem onHashChange_isAutoplayPaused (now : Int) (h : String) (s : TabState) :
    (onHashChange now h s).isAutoplayPaused = s.isAutoplayPaused := by
  unfold onHashChange
  split
  · split
    · exact setActiveTab_isAutoplayPaused ..
    · rfl
  · rfl

theorem pauseAutoplay_isAutoplayPaused (now : Int) (s : TabState)
    (h : s.autoplayEnabled = true) :
    (pauseAutoplay now s).isAutoplayPaused = true := by
  rw [pauseAutoplay_eq]
  simp [h]

theorem resumeAutoplay_isAutoplayPaused (now : Int) (s : TabState)
    (h : s.autoplayEnabled = true) :
    (resumeAutoplay now s).isAutoplayPaused = false := by
  rw [resumeAutoplay_eq]
  simp [h]

end Mast.Classic

namespace Mast

/-- Claim C9: for every tab group with n ≥ 1 tabs, a Right-arrow keypress
when activeIndex = n-1 wraps to 0 and a Left-arrow keypress when
activeIndex = 0 wraps to n-1; otherwise Right moves to activeIndex+1 and
Left to activeIndex-1; Home moves to 0 and End to n-1. -/
theorem tabs_C9_keyboard_nav (now : Int) (s : Classic.TabState)
    (hn : 1 ≤ s.tabLinks.length) (ha : s.currentActiveIndex < s.tabLinks.length) :
    ((Classic.step now (.keydown .arrowRight) s).currentActiveIndex =
       if s.currentActiveIndex = s.tabLinks.length - 1 then 0
       else s.currentActiveIndex + 1) ∧
    ((Classic.step now (.keydown .arrowLeft) s).currentActiveIndex =
       if s.currentActiveIndex = 0 then s.tabLinks.length - 1
       else s.currentActiveIndex - 1) ∧
    ((Classic.step now (.keydown .homeKey) s).currentActiveIndex = 0) ∧
    ((Classic.step now (.keydown .endKey) s).currentActiveIndex =
       s.tabLinks.length - 1) := by
  refine ⟨?_, ?_, ?_, ?_⟩
  · show (Classic.onKeydown now .arrowRight s).currentActiveIndex = _
    unfold Classic.onKeydown Classic.keyNewIndex
    dsimp only
    by_cases h : s.currentActiveIndex < s.tabLinks.length - 1
    · rw [if_pos h, Classic.setActiveTab_currentActiveIndex now _ s (by omega),
        if_neg (by omega)]
    · rw [if_neg h, Classic.setActiveTab_currentActiveIndex now _ s (by omega),
        if_pos (by omega)]
  · show (Classic.onKeydown now .arrowLeft s).currentActiveIndex = _
    unfold Classic.onKeydown Classic.keyNewIndex
    dsimp only
    by_cases h : s.currentActiveIndex > 0
    · rw [if_pos h, Classic.setActiveTab_currentActiveIndex now _ s (by omega),
        if_neg (by omega)]
    · rw [if_neg h, Classic.setActiveTab_currentActiveIndex now _ s (by omega),
        if_pos (by omega)]
  · exact Classic.setActiveTab_currentActiveIndex now 0 s (by omega)
  · exact Classic.setActiveTab_currentActiveIndex now _ s (by omega)

/-- Witness for C9 at a concrete 3-tab state with activeIndex 0. -/
theorem tabs_C9_witness :
    (1 ≤ Sample.s3.tabLinks.length ∧
     Sample.s3.currentActiveIndex < Sample.s3.tabLinks.length) ∧
    ((Classic.step 2000 (.keydown .arrowRight) Sample.s3).currentActiveIndex =
       if Sample.s3.currentActiveIndex = Sample.s3.tabLinks.length - 1 then 0
       else Sample.s3.currentActiveIndex + 1) ∧
    ((Classic.step 2000 (.keydown .arrowLeft) Sample.s3).currentActiveIndex =
       if Sample.s3.currentActiveIndex = 0 then Sample.s3.tabLinks.length - 1
       else Sample.s3.currentActiveIndex - 1) ∧
    ((Classic.step 2000 (.keydown .homeKey) Sample.s3).currentActiveIndex = 0) ∧
    ((Classic.step 2000 (.keydown .endKey) Sample.s3).currentActiveIndex =
       Sample.s3.tabLinks.length - 1) :=
  ⟨⟨by decide, by decide⟩, tabs_C9_keyboard_nav 2000 Sample.s3 (by decide) (by decide)⟩

end Mast

namespace Mast.Classic

/-- The autoplay timer correlation: the pending autoplay-timeout queue is
either empty or holds exactly the timeout whose id is stored in the
`autoplayTimer` variable. -/
def TimerInv (s : TabState) : Prop :=
  s.pendingTimeouts = [] ∨
    ∃ tid d, s.autoplayTimer = some tid ∧ s.pendingTimeouts = [⟨tid, d⟩]

end Mast.Classic

namespace Mast

/-- Claim C3: for an autoplay-enabled group at the start of a running
cycle (elapsed 0, cycle started at t0), pausing at t0 + e with
0 ≤ e < durationMs and resuming later at t1 schedules the resume timer
with delay durationMs - e, not the full durationMs. -/
theorem tabs_C3_resume_schedules_remaining (t0 e t1 : Int) (s : Classic.TabState)
    (hen : s.autoplayEnabled = true)
    (hrun : s.isAutoplayPaused = false)
    (hfresh : s.autoplayElapsedTime = 0)
    (hstart : s.autoplayStartTime = some t0)
    (he0 : 0 ≤ e) (he1 : e < s.autoplayDuration * 1000)
    (hinv : Classic.TimerInv s) :
    ∃ tid,
      (Classic.resumeAutoplay t1 (Classic.pauseAutoplay (t0 + e) s)).autoplayTimer =
        some tid ∧
      (Classic.resumeAutoplay t1 (Classic.pauseAutoplay (t0 + e) s)).pendingTimeouts =
        [⟨tid, s.autoplayDuration * 1000 - e⟩] := by
  refine ⟨s.nextTimerId, ?_, ?_⟩ <;>
    rcases hinv with hpt | ⟨tid0, d0, hat, hpt⟩ <;>
    simp_all [Classic.pauseAutoplay_eq, Classic.resumeAutoplay_eq] <;>
    first
    | rfl
    | omega
    | (constructor <;> omega)
    | (rcases s.autoplayTimer with _ | _ <;> rfl)

end Mast

namespace Mast

/-- Witness for C3: duration 4000 ms, pause 2000 ms into the cycle, resume
later; the rescheduled delay is 2000 ms. -/
theorem tabs_C3_witness :
    (Sample.s3.autoplayEnabled = true ∧ Sample.s3.isAutoplayPaused = false ∧
     Sample.s3.autoplayElapsedTime = 0 ∧ Sample.s3.autoplayStartTime = some 1000 ∧
     (0 : Int) ≤ 2000 ∧ (2000 : Int) < Sample.s3.autoplayDuration * 1000 ∧
     Classic.TimerInv Sample.s3) ∧
    (∃ tid,
      (Classic.resumeAutoplay 9999 (Classic.pauseAutoplay (1000 + 2000) Sample.s3)).autoplayTimer =
        some tid ∧
      (Classic.resumeAutoplay 9999 (Classic.pauseAutoplay (1000 + 2000) Sample.s3)).pendingTimeouts =
        [⟨tid, Sample.s3.autoplayDuration * 1000 - 2000⟩]) :=
  ⟨⟨rfl, rfl, rfl, rfl, by decide, by decide, Or.inr ⟨1, 4000, rfl, rfl⟩⟩,
   tabs_C3_resume_schedules_remaining 1000 2000 9999 Sample.s3 rfl rfl rfl rfl
     (by decide) (by decide) (Or.inr ⟨1, 4000, rfl, rfl⟩)⟩

end Mast

namespace Mast

/-- Claim C4: in an autoplay-enabled group, `setActiveTab` with a valid
index while paused resets `elapsedMs` to 0 without scheduling any timer
(the timer slot stays empty), and while running resets `elapsedMs` to 0
and schedules a fresh timer for the full duration. -/
theorem tabs_C4_setActive_autoplay_reset (now : Int) (i : Nat) (s : Classic.TabState)
    (hi : i < s.tabLinks.length) (hen : s.autoplayEnabled = true) :
    (s.isAutoplayPaused = true → s.autoplayTimer = none → s.pendingTimeouts = [] →
      ((Classic.setActiveTab now (i : Int) s).autoplayElapsedTime = 0 ∧
       (Classic.setActiveTab now (i : Int) s).autoplayTimer = none ∧
       (Classic.setActiveTab now (i : Int) s).pendingTimeouts = [])) ∧
    (s.isAutoplayPaused = false → Classic.TimerInv s →
      ((Classic.setActiveTab now (i : Int) s).autoplayElapsedTime = 0 ∧
       (Classic.setActiveTab now (i : Int) s).autoplayStartTime = some now ∧
       ∃ tid, (Classic.setActiveTab now (i : Int) s).autoplayTimer = some tid ∧
         (Classic.setActiveTab now (i : Int) s).pendingTimeouts =
           [⟨tid, s.autoplayDuration * 1000⟩])) := by
  rw [Classic.setActiveTab_eq, if_neg (by simp; omega)]
  constructor
  · intro hp hat hpt
    simp [hen, hp, hat, hpt]
  · intro hp hinv
    rcases hinv with hpt | ⟨tid0, d0, hat, hpt⟩ <;>
      refine ⟨?_, ?_, s.nextTimerId, ?_, ?_⟩ <;>
      simp_all <;>
      rcases s.autoplayTimer with _ | _ <;> rfl

/-- Witness for C4 at a concrete running state: the running-branch
implication of the theorem is discharged at `Sample.s3`. -/
theorem tabs_C4_witness :
    (1 < Sample.s3.tabLinks.length ∧ Sample.s3.autoplayEnabled = true) ∧
    (Sample.s3.isAutoplayPaused = false ∧ Classic.TimerInv Sample.s3) ∧
    ((Classic.setActiveTab 7777 (1 : Int) Sample.s3).autoplayElapsedTime = 0 ∧
     (Classic.setActiveTab 7777 (1 : Int) Sample.s3).autoplayStartTime = some 7777 ∧
     ∃ tid, (Classic.setActiveTab 7777 (1 : Int) Sample.s3).autoplayTimer = some tid ∧
       (Classic.setActiveTab 7777 (1 : Int) Sample.s3).pendingTimeouts =
         [⟨tid, Sample.s3.autoplayDuration * 1000⟩]) :=
  ⟨⟨by decide, rfl⟩, ⟨rfl, Or.inr ⟨1, 4000, rfl, rfl⟩⟩,
   (tabs_C4_setActive_autoplay_reset 7777 1 Sample.s3 (by decide) rfl).2 rfl
     (Or.inr ⟨1, 4000, rfl, rfl⟩)⟩

end Mast

namespace Mast

theorem findIdx_opt_char {α : Type} (p : α → Bool) (l : List α) :
    l.findIdx? p = if l.any p then some (l.findIdx p) else none := by
  by_cases h : l.any p
  · rw [if_pos h]
    exact List.findIdx?_eq_some_iff_findIdx_eq.mpr
      ⟨List.findIdx_lt_length.mpr (by simpa using h), rfl⟩
  · rw [if_neg h]
    rw [List.findIdx?_eq_none_iff]
    intro x hx
    have := (List.any_eq_true.not.mp h)
    push_neg at this
    simpa using this x hx

namespace Classic

theorem startAutoplay_currentActiveIndex (now : Int) (s : TabState) :
    (startAutoplay now s).currentActiveIndex = s.currentActiveIndex := by
  rw [startAutoplay_eq]
  split <;> rfl

theorem findInitialActiveIndex_lt_length (locationHash : String)
    (links : List TabLink) (hn : links ≠ []) :
    findInitialActiveIndex locationHash links < links.length := by
  have hlen : 0 < links.length := List.length_pos.mpr hn
  unfold findInitialActiveIndex
  simp only [findIdx_opt_char]
  by_cases hh : locationHash = "" <;>
    by_cases h1 : (links.any fun l => l.id = locationHash.drop 1) = true <;>
    by_cases h2 : (links.any fun l => l.ccActive) = true <;>
    simp [hh, h1, h2] <;>
    first
    | simpa using h1
    | simpa using h2
    | exact hlen

end Classic

end Mast

namespace Mast

/-- Claim C8: at mount time the initial active index is chosen by strict
priority — a tab whose id equals the URL fragment (overriding any
markup-declared `cc-active` tab), else the first markup-active tab, else
index 0 — and `init` makes exactly that index the active one. -/
theorem tabs_C8_mount_deep_link_priority (now : Int) (c : Classic.Config)
    (hn : c.links0 ≠ []) :
    (Classic.findInitialActiveIndex c.locationHash c.links0 =
      if c.locationHash ≠ "" ∧ c.links0.any (fun l => l.id = c.locationHash.drop 1) then
        c.links0.findIdx (fun l => l.id = c.locationHash.drop 1)
      else if c.links0.any (fun l => l.ccActive) then
        c.links0.findIdx (fun l => l.ccActive)
      else 0) ∧
    (Classic.initState now c).currentActiveIndex =
      Classic.findInitialActiveIndex c.locationHash c.links0 := by
  constructor
  · unfold Classic.findInitialActiveIndex
    simp only [findIdx_opt_char]
    by_cases hh : c.locationHash = "" <;>
      by_cases h1 : (c.links0.any fun l => l.id = c.locationHash.drop 1) = true <;>
      by_cases h2 : (c.links0.any fun l => l.ccActive) = true <;>
      simp [hh, h1, h2]
  · unfold Classic.initState
    dsimp only
    split
    · rw [Classic.startAutoplay_currentActiveIndex]
      exact Classic.setActiveTab_currentActiveIndex now _ _
        (Classic.findInitialActiveIndex_lt_length _ _ hn)
    · exact Classic.setActiveTab_currentActiveIndex now _ _
        (Classic.findInitialActiveIndex_lt_length _ _ hn)

end Mast

namespace Mast.Sample

/-- A mount configuration whose markup marks tab 0 active while the URL
fragment names tab 2. -/
def cfg : Classic.Config :=
  { links0 := [link "alpha" true, link "beta" false, link "gamma" false]
    panes0 := [⟨false⟩, ⟨true⟩, ⟨true⟩]
    isMobileDropdown := false
    autoplayEnabled := true
    autoplayDuration := 4
    autoplayHoverPause := true
    locationHash := "#gamma" }

end Mast.Sample

namespace Mast

/-- Witness for C8: with fragment `#gamma` and markup-active tab 0, the
fragment wins and tab 2 is mounted active. -/
theorem tabs_C8_witness :
    Sample.cfg.links0 ≠ [] ∧
    ((Classic.findInitialActiveIndex Sample.cfg.locationHash Sample.cfg.links0 =
      if Sample.cfg.locationHash ≠ "" ∧
          Sample.cfg.links0.any (fun l => l.id = Sample.cfg.locationHash.drop 1) then
        Sample.cfg.links0.findIdx (fun l => l.id = Sample.cfg.locationHash.drop 1)
      else if Sample.cfg.links0.any (fun l => l.ccActive) then
        Sample.cfg.links0.findIdx (fun l => l.ccActive)
      else 0) ∧
    (Classic.initState 500 Sample.cfg).currentActiveIndex =
      Classic.findInitialActiveIndex Sample.cfg.locationHash Sample.cfg.links0) :=
  ⟨by decide, tabs_C8_mount_deep_link_priority 500 Sample.cfg (by decide)⟩

end Mast

namespace Mast

/-- Ghost-instrumented state for the pause-source analysis: the component
state plus the environment's true pause sources — whether the component is
out of the viewport, whether the pointer is over it, and whether the user
last used the toggle button to switch autoplay off. -/
structure World where
  tabs : Classic.TabState
  outOfViewport : Bool
  hovered : Bool
  manualOff : Bool
  deriving Repr, DecidableEq

/-- One environment event: the component handlers run (`Classic.step`)
and the ghost pause-source flags track the environment — `intersect v`
sets out-of-viewport to `!v`, pointer enter/leave set `hovered`, and a
toggle click while running marks manually-off (a click while paused
clears it, since the button then acts as "play"). -/
def wstep (now : Int) (e : Event) (w : World) : World :=
  { tabs := Classic.step now e w.tabs
    outOfViewport :=
      match e with
      | .intersect v => !v
      | _ => w.outOfViewport
    hovered :=
      match e with
      | .mouseEnter => true
      | .mouseLeave => false
      | _ => w.hovered
    manualOff :=
      match e with
      | .toggleClick =>
          if w.tabs.autoplayEnabled then !w.tabs.isAutoplayPaused else w.manualOff
      | _ => w.manualOff }

/-- Claim C2's asserted invariant: the paused flag equals the OR of the
three pause sources. -/
def orInv (w : World) : Prop :=
  w.tabs.isAutoplayPaused =
    (w.outOfViewport || (w.hovered && w.tabs.autoplayHoverPause) || w.manualOff)

/-- The actual paused-flag dynamics of the code: each source's handler
calls `pauseAutoplay()` or `resumeAutoplay()` unconditionally, so the most
recent pause/resume event wins, regardless of the other sources. -/
def pausedEffect (e : Event) (hoverPause p : Bool) : Bool :=
  match e with
  | .intersect v => !v
  | .mouseEnter => if hoverPause then true else p
  | .mouseLeave => if hoverPause then false else p
  | .toggleClick => !p
  | _ => p

end Mast

namespace Mast.Sample

/-- Ghost world over `s3`: in viewport, not hovered, not manually off. -/
def w0 : World :=
  { tabs := s3, outOfViewport := false, hovered := false, manualOff := false }

end Mast.Sample

namespace Mast

/-- Counterexample to C2: from a running, in-viewport, hover-pause-enabled
state satisfying the OR invariant, the event sequence toggle-off (manual
pause), pointer enter (hover pause), pointer leave (hover resume) leaves
autoplay running even though the manual-off source is still set: the
paused flag is false while the OR of the pause sources is true, so the
resume took effect without all three sources being false. -/
theorem tabs_C2_counterexample :
    orInv Sample.w0 ∧
    ¬ orInv (wstep 3000 .mouseLeave (wstep 2500 .mouseEnter
      (wstep 2000 .toggleClick Sample.w0))) := by
  unfold orInv
  exact ⟨by decide, by decide⟩

/-- Claim C2 as amended: in an autoplay-enabled group, `isPaused` is not
the OR of the three pause sources; instead the most recent
pause/resume-triggering event wins.  Leaving the viewport or
pointer-enter (with hover-pause configured) forces paused; re-entering
the viewport or pointer-leave forces running; a toggle click flips the
flag; every other event leaves it unchanged — in particular, a resume
from one source takes effect even while another source still holds. -/
theorem tabs_C2_last_event_wins (now : Int) (e : Event) (s : Classic.TabState)
    (hen : s.autoplayEnabled = true) :
    (Classic.step now e s).isAutoplayPaused =
      pausedEffect e s.autoplayHoverPause s.isAutoplayPaused := by
  have hres := Classic.resumeAutoplay_isAutoplayPaused now s hen
  have hpau := Classic.pauseAutoplay_isAutoplayPaused now s hen
  cases e <;>
    simp [Classic.step, pausedEffect, hen, Classic.setActiveTab_isAutoplayPaused,
      Classic.onKeydown_isAutoplayPaused, Classic.fireTimer_isAutoplayPaused,
      Classic.onHashChange_isAutoplayPaused]
  case intersect v =>
    cases v <;> simp [hres, hpau]
  case mouseEnter =>
    cases hhp : s.autoplayHoverPause <;> simp [hhp, hpau]
  case mouseLeave =>
    cases hhp : s.autoplayHoverPause <;> simp [hhp, hres]
  case toggleClick =>
    cases hip : s.isAutoplayPaused <;> simp [hip, hres, hpau] <;>
      simp [hip] at hres hpau <;> assumption

/-- Witness for the amended C2 at a concrete state and event. -/
theorem tabs_C2_witness :
    Sample.s3.autoplayEnabled = true ∧
    (Classic.step 2000 .toggleClick Sample.s3).isAutoplayPaused =
      pausedEffect .toggleClick Sample.s3.autoplayHoverPause Sample.s3.isAutoplayPaused :=
  ⟨rfl, tabs_C2_last_event_wins 2000 .toggleClick Sample.s3 rfl⟩

end Mast

namespace Mast.Classic

theorem timerClear_empty_of_inv (s : TabState) (hinv : TimerInv s) :
    (match s.autoplayTimer with
     | some tid => s.pendingTimeouts.filter (fun t => t.tid ≠ tid)
     | none => s.pendingTimeouts) = [] := by
  rcases hinv with hpt | ⟨tid0, d0, hat, hpt⟩
  · rcases h : s.autoplayTimer with _ | tid <;> simp [hpt]
  · simp [hat, hpt]

theorem TimerInv_stopAutoplay (s : TabState) (hinv : TimerInv s) :
    (stopAutoplay s).pendingTimeouts = [] ∧ (stopAutoplay s).autoplayTimer = none := by
  rw [stopAutoplay_eq]
  exact ⟨timerClear_empty_of_inv s hinv, rfl⟩

theorem TimerInv_startAutoplay (now : Int) (s : TabState) (hinv : TimerInv s) :
    TimerInv (startAutoplay now s) := by
  rw [startAutoplay_eq]
  split
  · exact hinv
  · right
    exact ⟨s.nextTimerId, s.autoplayDuration * 1000 - s.autoplayElapsedTime, rfl,
      by rw [timerClear_empty_of_inv s hinv]; rfl⟩

theorem TimerInv_pauseAutoplay (now : Int) (s : TabState) (hinv : TimerInv s) :
    TimerInv (pauseAutoplay now s) := by
  rw [pauseAutoplay_eq]
  split
  · exact hinv
  · left
    exact timerClear_empty_of_inv s hinv

theorem TimerInv_resumeAutoplay (now : Int) (s : TabState) (hinv : TimerInv s) :
    TimerInv (resumeAutoplay now s) := by
  rw [resumeAutoplay_eq]
  split
  · exact hinv
  · right
    exact ⟨s.nextTimerId, s.autoplayDuration * 1000 - s.autoplayElapsedTime, rfl,
      by rw [timerClear_empty_of_inv s hinv]; rfl⟩

theorem TimerInv_setActiveTab (now index : Int) (s : TabState) (hinv : TimerInv s) :
    TimerInv (setActiveTab now index s) := by
  rw [setActiveTab_eq]
  split
  · exact hinv
  · dsimp only
    split
    · split
      · rcases hinv with hpt | ⟨tid0, d0, hat, hpt⟩
        · exact Or.inl hpt
        · exact Or.inr ⟨tid0, d0, hat, hpt⟩
      · right
        exact ⟨s.nextTimerId, s.autoplayDuration * 1000, rfl,
          by rw [timerClear_empty_of_inv s hinv]; rfl⟩
    · rcases hinv with hpt | ⟨tid0, d0, hat, hpt⟩
      · exact Or.inl hpt
      · exact Or.inr ⟨tid0, d0, hat, hpt⟩

theorem TimerInv_fireTimer (now : Int) (tid : Nat) (s : TabState) (hinv : TimerInv s) :
    TimerInv (fireTimer now tid s) := by
  unfold fireTimer
  split
  · next hany =>
    apply TimerInv_setActiveTab
    left
    rcases hinv with hpt | ⟨tid0, d0, hat, hpt⟩
    · simp [hpt]
    · rw [hpt] at hany ⊢
      simp at hany
      simp [hany]
  · exact hinv

theorem TimerInv_onKeydown (now : Int) (k : TabKey) (s : TabState) (hinv : TimerInv s) :
    TimerInv (onKeydown now k s) := by
  unfold onKeydown
  split
  · exact TimerInv_setActiveTab _ _ _ hinv
  · exact hinv

theorem TimerInv_onHashChange (now : Int) (h : String) (s : TabState) (hinv : TimerInv s) :
    TimerInv (onHashChange now h s) := by
  unfold onHashChange
  split
  · split
    · exact TimerInv_setActiveTab _ _ _ hinv
    · exact hinv
  · exact hinv

theorem TimerInv_step (now : Int) (e : Event) (s : TabState) (hinv : TimerInv s) :
    TimerInv (step now e s) := by
  cases e with
  | clickTab i => exact TimerInv_setActiveTab _ _ _ hinv
  | keydown k => exact TimerInv_onKeydown _ _ _ hinv
  | timerFire tid => exact TimerInv_fireTimer _ _ _ hinv
  | intersect v =>
    show TimerInv (if s.autoplayEnabled then _ else s)
    split
    · split
      · exact TimerInv_resumeAutoplay _ _ hinv
      · exact TimerInv_pauseAutoplay _ _ hinv
    · exact hinv
  | mouseEnter =>
    show TimerInv (if _ then _ else s)
    split
    · exact TimerInv_pauseAutoplay _ _ hinv
    · exact hinv
  | mouseLeave =>
    show TimerInv (if _ then _ else s)
    split
    · exact TimerInv_resumeAutoplay _ _ hinv
    · exact hinv
  | toggleClick =>
    show TimerInv (if s.autoplayEnabled then _ else s)
    split
    · split
      · exact TimerInv_resumeAutoplay _ _ hinv
      · exact TimerInv_pauseAutoplay _ _ hinv
    · exact hinv
  | hashChange h => exact TimerInv_onHashChange _ _ _ hinv
  | resize w => exact hinv
  | resizeFire tid => exact hinv

theorem TimerInv_initState (now : Int) (c : Config) :
    TimerInv (initState now c) := by
  unfold initState
  dsimp only
  have h1 : TimerInv (setActiveTab now
      (findInitialActiveIndex c.locationHash c.links0 : Int) (preInitState c)) :=
    TimerInv_setActiveTab _ _ _ (Or.inl rfl)
  split
  · exact TimerInv_startAutoplay _ _ h1
  · exact h1


end Mast.Classic

namespace Mast.Classic

/-- A mounted component driven by a timed event trace. -/
def run (s : TabState) (trace : List (Int × Event)) : TabState :=
  trace.foldl (fun s p => step p.1 p.2 s) s

theorem TimerInv_run (s : TabState) (trace : List (Int × Event))
    (hinv : TimerInv s) : TimerInv (run s trace) := by
  induction trace generalizing s with
  | nil => exact hinv
  | cons p rest ih => exact ih _ (TimerInv_step p.1 p.2 s hinv)

end Mast.Classic

namespace Mast

/-- Claim C5: in every state reachable from mount by any timed event trace
(clicks, keys, timer fires, visibility changes, hovers, toggle clicks,
hash changes), at most one autoplay timeout is pending: every scheduling
operation cancels the previously stored timeout first, so two live timers
never coexist for one group. -/
theorem tabs_C5_at_most_one_timer (now0 : Int) (c : Classic.Config)
    (trace : List (Int × Event)) :
    (Classic.run (Classic.initState now0 c) trace).pendingTimeouts.length ≤ 1 := by
  have hinv := Classic.TimerInv_run (Classic.initState now0 c) trace
    (Classic.TimerInv_initState now0 c)
  rcases hinv with hpt | ⟨tid0, d0, _, hpt⟩ <;> simp [hpt]

end Mast

namespace Mast.Opt

/-- The autoplay timer correlation for the optimized variant. -/
def TimerInvO (s : TabState) : Prop :=
  s.pendingTimeouts = [] ∨
    ∃ tid d, s.autoplayTimer = some tid ∧ s.pendingTimeouts = [⟨tid, d⟩]

/-- The resize-debounce timer correlation for the optimized variant. -/
def ResizeInv (s : TabState) : Prop :=
  s.pendingResize = [] ∨ ∃ tid, s.resizeTimer = some tid ∧ s.pendingResize = [tid]

theorem cleanup_eq (s : TabState) :
    cleanup s =
      { s with
          listenersAttached := false
          observerConnected := false
          autoplayTimer := none
          autoplayStartTime := none
          pendingTimeouts :=
            match s.autoplayTimer with
            | some tid => s.pendingTimeouts.filter (fun t => t.tid ≠ tid)
            | none => s.pendingTimeouts
          pendingResize :=
            match s.resizeTimer with
            | some tid => s.pendingResize.filter (fun t => t ≠ tid)
            | none => s.pendingResize } := by
  cases s with
  | mk tl tp ci md dd ae ad ahp ip pc et ast at_ pt nt cw ww rt pr la oc =>
    cases at_ <;> cases rt <;> simp [cleanup, stopAutoplay, clearTimeoutM]

theorem cleanup_pendingTimeouts (s : TabState) (hinv : TimerInvO s) :
    (cleanup s).pendingTimeouts = [] := by
  rw [cleanup_eq]
  rcases hinv with hpt | ⟨tid0, d0, hat, hpt⟩
  · rcases h : s.autoplayTimer with _ | tid <;> simp [hpt]
  · simp [hat, hpt]

theorem cleanup_pendingResize (s : TabState) (hrinv : ResizeInv s) :
    (cleanup s).pendingResize = [] := by
  rw [cleanup_eq]
  rcases hrinv with hpr | ⟨tid0, hrt, hpr⟩
  · rcases h : s.resizeTimer with _ | tid <;> simp [hpr]
  · simp [hrt, hpr]

end Mast.Opt

namespace Mast

/-- Claim C6: after `cleanup()` of the optimized variant, the component is
inert — the autoplay timeout and the resize debounce timeout are
cancelled (so no subsequently fired timer advances the active tab), the
visibility observer is disconnected, and every registered listener is
removed, so no subsequent event of any kind changes any state of the
group. -/
theorem tabs_C6_cleanup_inert (s : Opt.TabState)
    (hinv : Opt.TimerInvO s) (hrinv : Opt.ResizeInv s) :
    ∀ (now : Int) (e : Event), Opt.step now e (Opt.cleanup s) = Opt.cleanup s := by
  intro now e
  have hl : (Opt.cleanup s).listenersAttached = false := by
    rw [Opt.cleanup_eq]
  have ho : (Opt.cleanup s).observerConnected = false := by
    rw [Opt.cleanup_eq]
  have hp : (Opt.cleanup s).pendingTimeouts = [] := Opt.cleanup_pendingTimeouts s hinv
  have hr : (Opt.cleanup s).pendingResize = [] := Opt.cleanup_pendingResize s hrinv
  cases e <;> simp [Opt.step, hl, ho, Opt.fireTimer, hp, Opt.fireResize, hr]

end Mast

namespace Mast.Sample

/-- A concrete mounted optimized-variant state with a pending autoplay
timeout and a pending resize debounce. -/
def o3 : Opt.TabState :=
  { tabLinks := [link "alpha" true, link "beta" false, link "gamma" false]
    tabPanes := [⟨false⟩, ⟨true⟩, ⟨true⟩]
    currentActiveIndex := 0
    isMobileDropdown := false
    dropdownOpen := false
    autoplayEnabled := true
    autoplayDuration := 4
    autoplayHoverPause := true
    isAutoplayPaused := false
    pausedClass := false
    autoplayElapsedTime := 0
    autoplayStartTime := some 1000
    autoplayTimer := some 1
    pendingTimeouts := [⟨1, 4000⟩]
    nextTimerId := 3
    cachedWindowWidth := 1024
    windowWidth := 1024
    resizeTimer := some 2
    pendingResize := [2]
    listenersAttached := true
    observerConnected := true }

end Mast.Sample

namespace Mast

/-- Witness for C6 at a concrete optimized-variant state. -/
theorem tabs_C6_witness :
    Opt.TimerInvO Sample.o3 ∧ Opt.ResizeInv Sample.o3 ∧
    ∀ (now : Int) (e : Event),
      Opt.step now e (Opt.cleanup Sample.o3) = Opt.cleanup Sample.o3 :=
  ⟨Or.inr ⟨1, 4000, rfl, rfl⟩, Or.inr ⟨2, rfl, rfl⟩,
   tabs_C6_cleanup_inert Sample.o3 (Or.inr ⟨1, 4000, rfl, rfl⟩)
     (Or.inr ⟨2, rfl, rfl⟩)⟩

end Mast

namespace Mast

/-- The abstract operations both variants support, from the claim:
manual activation, keyboard navigation, autoplay timer fire, pause,
resume, and the play/pause toggle. -/
inductive TabOp where
  | setActive (index : Int)
  | key (k : TabKey)
  | fire (tid : Nat)
  | pause
  | resume
  | toggle
  deriving Repr, DecidableEq

namespace Classic

/-- One abstract operation on the classic variant. -/
def runOp (now : Int) (o : TabOp) (s : TabState) : TabState :=
  match o with
  | .setActive index => setActiveTab now index s
  | .key k => onKeydown now k s
  | .fire tid => fireTimer now tid s
  | .pause => pauseAutoplay now s
  | .resume => resumeAutoplay now s
  | .toggle =>
      if s.autoplayEnabled then
        if s.isAutoplayPaused then resumeAutoplay now s else pauseAutoplay now s
      else s

end Classic

namespace Opt

/-- One abstract operation on the optimized variant. -/
def runOp (now : Int) (o : TabOp) (s : TabState) : TabState :=
  match o with
  | .setActive index => setActiveTab now index s
  | .key k => onKeydown now k s
  | .fire tid => fireTimer now tid s
  | .pause => pauseAutoplay now s
  | .resume => resumeAutoplay now s
  | .toggle =>
      if s.autoplayEnabled then
        if s.isAutoplayPaused then resumeAutoplay now s else pauseAutoplay now s
      else s

/-- Projection of the optimized variant's state onto the classic
variant's state space (the shared fields). -/
def toClassic (s : TabState) : Classic.TabState :=
  { tabLinks := s.tabLinks
    tabPanes := s.tabPanes
    currentActiveIndex := s.currentActiveIndex
    isMobileDropdown := s.isMobileDropdown
    dropdownOpen := s.dropdownOpen
    autoplayEnabled := s.autoplayEnabled
    autoplayDuration := s.autoplayDuration
    autoplayHoverPause := s.autoplayHoverPause
    isAutoplayPaused := s.isAutoplayPaused
    pausedClass := s.pausedClass
    autoplayElapsedTime := s.autoplayElapsedTime
    autoplayStartTime := s.autoplayStartTime
    autoplayTimer := s.autoplayTimer
    pendingTimeouts := s.pendingTimeouts
    nextTimerId := s.nextTimerId }

theorem toClassic_setActiveTab (now index : Int) (s : TabState) :
    toClassic (setActiveTab now index s) =
      Classic.setActiveTab now index (toClassic s) := by
  cases s with
  | mk tl tp ci md dd ae ad ahp ip pc et ast at_ pt nt cw ww rt pr la oc =>
    cases at_ <;> cases ae <;> cases ip <;> cases dd <;>
      simp [setActiveTab, Classic.setActiveTab, restartAutoplay, Classic.restartAutoplay,
        startAutoplay, Classic.startAutoplay, stopAutoplay, Classic.stopAutoplay,
        clearTimeoutM, Classic.clearTimeoutM, setTimeoutM, Classic.setTimeoutM,
        toClassic] <;>
      (try (split <;> simp))

theorem toClassic_pauseAutoplay (now : Int) (s : TabState) :
    toClassic (pauseAutoplay now s) = Classic.pauseAutoplay now (toClassic s) := by
  cases s with
  | mk tl tp ci md dd ae ad ahp ip pc et ast at_ pt nt cw ww rt pr la oc =>
    cases at_ <;> cases ae <;> cases ast <;>
      simp [pauseAutoplay, Classic.pauseAutoplay, stopAutoplay, Classic.stopAutoplay,
        clearTimeoutM, Classic.clearTimeoutM, toClassic] <;>
      (try (split <;> simp))

theorem toClassic_resumeAutoplay (now : Int) (s : TabState) :
    toClassic (resumeAutoplay now s) = Classic.resumeAutoplay now (toClassic s) := by
  cases s with
  | mk tl tp ci md dd ae ad ahp ip pc et ast at_ pt nt cw ww rt pr la oc =>
    cases at_ <;> cases ae <;> cases ip <;>
      simp [resumeAutoplay, Classic.resumeAutoplay, startAutoplay, Classic.startAutoplay,
        stopAutoplay, Classic.stopAutoplay, clearTimeoutM, Classic.clearTimeoutM,
        setTimeoutM, Classic.setTimeoutM, toClassic] <;>
      (try (split <;> simp))

theorem toClassic_fireTimer (now : Int) (tid : Nat) (s : TabState) :
    toClassic (fireTimer now tid s) = Classic.fireTimer now tid (toClassic s) := by
  unfold fireTimer Classic.fireTimer
  by_cases h : (s.pendingTimeouts.any fun t => t.tid = tid) = true
  · have h2 : ((toClassic s).pendingTimeouts.any fun t => t.tid = tid) = true := h
    rw [if_pos h, if_pos h2]
    exact toClassic_setActiveTab ..
  · have h2 : ¬((toClassic s).pendingTimeouts.any fun t => t.tid = tid) = true := h
    rw [if_neg h, if_neg h2]

theorem toClassic_onKeydown (now : Int) (k : TabKey) (s : TabState) :
    toClassic (onKeydown now k s) = Classic.onKeydown now k (toClassic s) := by
  unfold onKeydown Classic.onKeydown
  rcases h : Classic.keyNewIndex k s.currentActiveIndex s.tabLinks.length with _ | i <;>
    have h2 : Classic.keyNewIndex k (toClassic s).currentActiveIndex
      (toClassic s).tabLinks.length = _ := h <;>
    rw [h2] <;>
    first
    | rfl
    | exact toClassic_setActiveTab ..

theorem toClassic_runOp (now : Int) (o : TabOp) (s : TabState) :
    toClassic (runOp now o s) = Classic.runOp now o (toClassic s) := by
  cases o with
  | setActive index => exact toClassic_setActiveTab ..
  | key k => exact toClassic_onKeydown ..
  | fire tid => exact toClassic_fireTimer ..
  | pause => exact toClassic_pauseAutoplay ..
  | resume => exact toClassic_resumeAutoplay ..
  | toggle =>
    simp only [runOp, Classic.runOp]
    by_cases he : s.autoplayEnabled = true
    · have he2 : (toClassic s).autoplayEnabled = true := he
      rw [if_pos he, if_pos he2]
      by_cases hp : s.isAutoplayPaused = true
      · have hp2 : (toClassic s).isAutoplayPaused = true := hp
        rw [if_pos hp, if_pos hp2]
        exact toClassic_resumeAutoplay ..
      · have hp2 : ¬(toClassic s).isAutoplayPaused = true := hp
        rw [if_neg hp, if_neg hp2]
        exact toClassic_pauseAutoplay ..
    · have he2 : ¬(toClassic s).autoplayEnabled = true := he
      rw [if_neg he, if_neg he2]

theorem toClassic_foldl (trace : List (Int × TabOp)) (s : TabState) :
    toClassic (trace.foldl (fun s p => runOp p.1 p.2 s) s) =
      trace.foldl (fun s p => Classic.runOp p.1 p.2 s) (toClassic s) := by
  induction trace generalizing s with
  | nil => rfl
  | cons p rest ih =>
    simp only [List.foldl_cons]
    rw [ih, toClassic_runOp]

end Opt

end Mast

namespace Mast

/-- Claim C10 (implicit): the classic variant (`src/tabs.js`) and the
optimized variant (`src/unnamed/part_000`) are behaviorally equivalent on
the abstract state: started from the same configuration (the optimized
state projected onto the shared fields) and given the same timed sequence
of operations (setActive, keyboard, timer fire, pause, resume, toggle),
both produce the same activeIndex, the same paused flag and the same
elapsed milliseconds. -/
theorem tabs_C10_variants_equivalent (a : Classic.TabState) (b : Opt.TabState)
    (h : a = Opt.toClassic b) (trace : List (Int × TabOp)) :
    (trace.foldl (fun s p => Classic.runOp p.1 p.2 s) a).currentActiveIndex =
      (trace.foldl (fun s p => Opt.runOp p.1 p.2 s) b).currentActiveIndex ∧
    (trace.foldl (fun s p => Classic.runOp p.1 p.2 s) a).isAutoplayPaused =
      (trace.foldl (fun s p => Opt.runOp p.1 p.2 s) b).isAutoplayPaused ∧
    (trace.foldl (fun s p => Classic.runOp p.1 p.2 s) a).autoplayElapsedTime =
      (trace.foldl (fun s p => Opt.runOp p.1 p.2 s) b).autoplayElapsedTime := by
  subst h
  rw [← Opt.toClassic_foldl]
  exact ⟨rfl, rfl, rfl⟩

/-- Witness for C10 at a concrete optimized-variant state and a concrete
operation sequence (pause, toggle back on, manual activation, timer). -/
theorem tabs_C10_witness :
    Opt.toClassic Sample.o3 = Opt.toClassic Sample.o3 ∧
    (([(1500, TabOp.pause), (2600, TabOp.toggle), (3000, TabOp.setActive 2)] :
        List (Int × TabOp)).foldl (fun s p => Classic.runOp p.1 p.2 s)
        (Opt.toClassic Sample.o3)).currentActiveIndex =
      (([(1500, TabOp.pause), (2600, TabOp.toggle), (3000, TabOp.setActive 2)] :
        List (Int × TabOp)).foldl (fun s p => Opt.runOp p.1 p.2 s)
        Sample.o3).currentActiveIndex ∧
    (([(1500, TabOp.pause), (2600, TabOp.toggle), (3000, TabOp.setActive 2)] :
        List (Int × TabOp)).foldl (fun s p => Classic.runOp p.1 p.2 s)
        (Opt.toClassic Sample.o3)).isAutoplayPaused =
      (([(1500, TabOp.pause), (2600, TabOp.toggle), (3000, TabOp.setActive 2)] :
        List (Int × TabOp)).foldl (fun s p => Opt.runOp p.1 p.2 s)
        Sample.o3).isAutoplayPaused ∧
    (([(1500, TabOp.pause), (2600, TabOp.toggle), (3000, TabOp.setActive 2)] :
        List (Int × TabOp)).foldl (fun s p => Classic.runOp p.1 p.2 s)
        (Opt.toClassic Sample.o3)).autoplayElapsedTime =
      (([(1500, TabOp.pause), (2600, TabOp.toggle), (3000, TabOp.setActive 2)] :
        List (Int × TabOp)).foldl (fun s p => Opt.runOp p.1 p.2 s)
        Sample.o3).autoplayElapsedTime :=
  ⟨rfl, tabs_C10_variants_equivalent (Opt.toClassic Sample.o3) Sample.o3 rfl
    [(1500, TabOp.pause), (2600, TabOp.toggle), (3000, TabOp.setActive 2)]⟩

end Mast
